import Mathlib

/-!
# Verification of the file-identifier job (`file_identifier_job.rs`)

Shallow embedding of `src/core/src/object/file_identifier/file_identifier_job.rs`.

The database (a Prisma client over the `file_path` table) is modelled as a
`List FilePathRow` in table order (rows are inserted with monotonically
increasing, immutable ids, so table order coincides with id order whenever the
list is sorted by id; theorems that need the "smallest id" reading carry that
sortedness hypothesis explicitly).  Prisma's `count`, `find_first` (no
`order_by` in the source) and `find_many(order_by id asc, take n)` become pure
list operations.  External collaborators that are not part of this file's
source (`ensure_sub_path_is_in_location`, `ensure_sub_path_is_directory`,
`IsolatedFilePathData::new`, `ensure_file_path_exists`,
`process_identifier_file_paths`, the job scheduler) are modelled as oracle
parameters or from the spec, as marked in their doc comments.
-/

/-- A row of the `file_path` table.  `id` is `file_path::id::Type` (an `i32`,
modelled as `Int`; ids in the store are small enough that no wraparound is
involved).  Nullable columns are `Option`s, matching the Prisma schema usage
in the filters (`object_id: equals(None)`, `is_dir: equals(Some(false))`,
`location_id: equals(Some(l))`). -/
structure FilePathRow where
  id : Int
  location_id : Option Int
  materialized_path : Option String
  is_dir : Option Bool
  object_id : Option Int
deriving DecidableEq

/-- Rust `IsolatedFilePathData` for a sub-path, reduced to the one piece of data the
job reads from it: `materialized_path_for_children()`.  The source constructs
it with `is_dir = true` and `.expect`s that the children prefix exists, so the
prefix is carried directly. -/
structure Iso where
  childPrefix : String
deriving DecidableEq

/-- Modelled from the spec: scope-validation failures of the external
path-resolution collaborator surface to this job as the fatal
`InvalidSubPath` / `SubPathNotFound` errors (`FileIdentifierJobError` is not
under `src/`). -/
inductive SubPathError where
  | InvalidSubPath (path : String)
  | SubPathNotFound (path : String)
deriving DecidableEq

/-- Errors that `init` / `execute_step` can return.  `EarlyFinish` carries the job
name and reason, as `JobError::EarlyFinish { name, reason }` does.  `SubPath`
wraps a scope-validation failure (`FileIdentifierJobError`).  `MissingField`
models `maybe_missing` failing on a `None` column.  `ExpectPanic` models the
Rust `.expect(...)` on the `find_first` result in `init`. -/
inductive JobError where
  | EarlyFinish (name : String) (reason : String)
  | SubPath (e : SubPathError)
  | MissingField (field : String)
  | ExpectPanic (msg : String)
deriving DecidableEq

/-- Rust `FileIdentifierReport` (all four counters are `usize`, modelled as `Nat`). -/
structure FileIdentifierReport where
  total_orphan_paths : Nat := 0
  total_objects_created : Nat := 0
  total_objects_linked : Nat := 0
  total_objects_ignored : Nat := 0
deriving DecidableEq

/-- Rust `FileIdentifierJobRunMetadata` with its `Default` (all counters zero,
cursor 0). -/
structure FileIdentifierJobRunMetadata where
  report : FileIdentifierReport := {}
  cursor : Int := 0
deriving DecidableEq

/-- The source's `impl JobRunMetadata for FileIdentifierJobRunMetadata`, method `update`:
the four report counters are summed field-wise and the cursor is replaced by
the new cursor. -/
def FileIdentifierJobRunMetadata.update (self new_data : FileIdentifierJobRunMetadata) :
    FileIdentifierJobRunMetadata :=
  { report :=
      { total_orphan_paths :=
          self.report.total_orphan_paths + new_data.report.total_orphan_paths,
        total_objects_created :=
          self.report.total_objects_created + new_data.report.total_objects_created,
        total_objects_linked :=
          self.report.total_objects_linked + new_data.report.total_objects_linked,
        total_objects_ignored :=
          self.report.total_objects_ignored + new_data.report.total_objects_ignored },
    cursor := new_data.cursor }

/-- Rust `orphan_path_filters(location_id, file_path_id, maybe_sub_iso_file_path)`
as the conjunction of its `WhereParam`s: object link unset, `is_dir` is
`Some(false)`, matching location id, optionally `id ≥ file_path_id`
(`file_path::id::gte`, the cursor workaround), optionally
`materialized_path.starts_with(children prefix of the sub path)`.  A `NULL`
`materialized_path` does not match a `starts_with` condition. -/
def orphan_path_filters (location_id : Int) (file_path_id : Option Int)
    (maybe_sub_iso_file_path : Option Iso) (r : FilePathRow) : Bool :=
  r.object_id == none &&
  r.is_dir == some false &&
  r.location_id == some location_id &&
  (match file_path_id with
   | some c => decide (c ≤ r.id)
   | none => true) &&
  (match maybe_sub_iso_file_path with
   | some sub_iso_file_path =>
     match r.materialized_path with
     | some mp => sub_iso_file_path.childPrefix.isPrefixOf mp
     | none => false
   | none => true)

/-- Rust `count_orphan_file_paths`: `db.file_path().count(orphan_path_filters(location_id, None, scope))`. -/
def count_orphan_file_paths (rows : List FilePathRow) (location_id : Int)
    (maybe_sub_materialized_path : Option Iso) : Nat :=
  (rows.filter (orphan_path_filters location_id none maybe_sub_materialized_path)).length

/-- The `find_first` query of `init`:
`db.file_path().find_first(orphan_path_filters(location_id, None, scope)).select(id)`.
`find_first` has no `order_by`, so it returns the first matching row in table
order (`none` when no row matches). -/
def find_first_orphan (rows : List FilePathRow) (location_id : Int)
    (maybe_sub_materialized_path : Option Iso) : Option FilePathRow :=
  (rows.filter (orphan_path_filters location_id none maybe_sub_materialized_path)).head?

/-- The ascending-by-id ordering used by `order_by(file_path::id::order(SortOrder::Asc))`. -/
def idLe (a b : FilePathRow) : Prop := a.id ≤ b.id

instance : DecidableRel idLe := fun a b => Int.decLe a.id b.id

instance : IsTotal FilePathRow idLe := ⟨fun a b => Int.le_total a.id b.id⟩

instance : IsTrans FilePathRow idLe := ⟨fun _ _ _ hab hbc => le_trans hab hbc⟩

/-- Rust `get_orphan_file_paths(db, location_id, file_path_id, scope)`:
`find_many(orphan_path_filters(location_id, Some(file_path_id), scope))
.order_by(id asc).take(CHUNK_SIZE)`.  `CHUNK_SIZE` is defined in the module's
`mod.rs` (not under `src/`); the spec only says it is a fixed configuration
constant, so it is a parameter here and every theorem quantifies over it. -/
def get_orphan_file_paths (rows : List FilePathRow) (location_id : Int)
    (file_path_id : Int) (maybe_sub_materialized_path : Option Iso)
    (chunk_size : Nat) : List FilePathRow :=
  ((rows.filter
      (orphan_path_filters location_id (some file_path_id) maybe_sub_materialized_path)).insertionSort
    idLe).take chunk_size

/-- Location data as `init` uses it: `location.id` and the nullable
`location.path` column read through `maybe_missing`. -/
structure LocationData where
  id : Int
  path : Option String
deriving DecidableEq

/-- Rust `maybe_missing(data, field)` from `util::db`: unwraps an optional column,
failing with a missing-field error naming the column. -/
def maybe_missing {α : Type} (data : Option α) (field : String) : Except JobError α :=
  match data with
  | some d => .ok d
  | none => .error (.MissingField field)

/-- The external path/scope-resolution collaborators called by `init`
(`location::file_path_helper`, not under `src/`), as oracle functions.  Each
mirrors one call site: `ensure_sub_path_is_in_location(location_path, sub_path)`
returning the full path, `ensure_sub_path_is_directory(location_path, sub_path)`,
`IsolatedFilePathData::new(location_id, location_path, full_path, true)`, and
`ensure_file_path_exists(sub_path, sub_iso_file_path, db, SubPathNotFound)`
(the database lookup it performs is internal to the collaborator). -/
structure ScopeOracles where
  ensure_sub_path_is_in_location : String → String → Except SubPathError String
  ensure_sub_path_is_directory : String → String → Except SubPathError Unit
  iso_file_path_new : String → String → Except SubPathError Iso
  ensure_file_path_exists : String → Iso → Except SubPathError Unit

/-- The `maybe_sub_iso_file_path` computation of `init` (lines 108-132): for a
`Some` sub path different from `Path::new("")`, run the four validation steps
in source order, each failure mapped into the job error
(`FileIdentifierJobError::from`); otherwise no scope. -/
def validate_sub_path (oracles : ScopeOracles) (location_path : String) :
    Option String → Except JobError (Option Iso)
  | some sub_path =>
    if sub_path ≠ "" then
      match oracles.ensure_sub_path_is_in_location location_path sub_path with
      | .error e => .error (.SubPath e)
      | .ok full_path =>
        match oracles.ensure_sub_path_is_directory location_path sub_path with
        | .error e => .error (.SubPath e)
        | .ok _ =>
          match oracles.iso_file_path_new location_path full_path with
          | .error e => .error (.SubPath e)
          | .ok sub_iso_file_path =>
            match oracles.ensure_file_path_exists sub_path sub_iso_file_path with
            | .error e => .error (.SubPath e)
            | .ok _ => .ok (some sub_iso_file_path)
    else .ok none
  | none => .ok none

/-- Rust `FileIdentifierJob::init`.  Returns the initial run metadata together with
the planned step count (the source returns `vec![(); task_count]`; only its
length matters).  `task_count` is computed in the source as
`(orphan_count as f64 / CHUNK_SIZE as f64).ceil() as usize`, a floating-point
computation; it is abstracted here as the parameter `float_ceil_div`, which
the theorems quantify over. -/
def init (oracles : ScopeOracles) (location : LocationData) (sub_path : Option String)
    (rows : List FilePathRow) (float_ceil_div : Nat → Nat → Nat) (chunk_size : Nat) :
    Except JobError (FileIdentifierJobRunMetadata × Nat) :=
  match maybe_missing location.path "location.path" with
  | .error e => .error e
  | .ok location_path =>
    match validate_sub_path oracles location_path sub_path with
    | .error e => .error e
    | .ok maybe_sub_iso_file_path =>
      let orphan_count := count_orphan_file_paths rows location.id maybe_sub_iso_file_path
      if orphan_count = 0 then
        .error (.EarlyFinish "file_identifier" "Found no orphan file paths to process")
      else
        let task_count := float_ceil_div orphan_count chunk_size
        match find_first_orphan rows location.id maybe_sub_iso_file_path with
        | none =>
          .error (.ExpectPanic "We already validated before that there are orphans file_paths")
        | some first_path =>
          .ok ({ report := { total_orphan_paths := orphan_count,
                             total_objects_created := 0,
                             total_objects_linked := 0,
                             total_objects_ignored := 0 },
                 cursor := first_path.id }, task_count)

/-- The per-entry outcome of the Identification Engine: a dedup hit links the
entry, a novel identifier creates a record, a soft failure (vanished or
unreadable file) skips the entry as ignored. -/
inductive EntryOutcome where
  | created
  | linked
  | ignored
deriving DecidableEq

/-- Modelled from the spec: `process_identifier_file_paths` (the
Identification Engine, defined in the module's `mod.rs`, not under `src/`).
Per the spec each entry of the batch yields exactly one outcome —
created / linked / ignored — determined by external content fingerprinting and
lookup, modelled by the `outcome` oracle; the function returns
`(created, linked, new_cursor)` with `new_cursor = 1 + max(id in batch)`
(folded from the previous cursor; the batch ids are at least the cursor).
Ignored entries are counted in neither component. -/
def process_identifier_file_paths (outcome : FilePathRow → EntryOutcome)
    (cursor : Int) (file_paths : List FilePathRow) : Nat × Nat × Int :=
  ((file_paths.filter fun r => outcome r == EntryOutcome.created).length,
   (file_paths.filter fun r => outcome r == EntryOutcome.linked).length,
   1 + (file_paths.map FilePathRow.id).foldl max cursor)

/-- Rust `FileIdentifierJob::execute_step`: fetch the chunk at the current cursor;
an empty chunk aborts the whole job with `EarlyFinish`; otherwise the step's
new metadata starts from `Default` and records the engine's created and linked
counts and the new cursor (`total_orphan_paths` and `total_objects_ignored`
are never written and stay 0). -/
def execute_step (rows : List FilePathRow) (location_id : Int)
    (maybe_sub_iso_file_path : Option Iso) (chunk_size : Nat)
    (outcome : FilePathRow → EntryOutcome)
    (run_metadata : FileIdentifierJobRunMetadata) :
    Except JobError FileIdentifierJobRunMetadata :=
  let file_paths :=
    get_orphan_file_paths rows location_id run_metadata.cursor maybe_sub_iso_file_path chunk_size
  if file_paths.isEmpty then
    .error (.EarlyFinish "file_identifier"
      "Expected orphan Paths not returned from database query for this chunk")
  else
    let result := process_identifier_file_paths outcome run_metadata.cursor file_paths
    .ok { report := { total_orphan_paths := 0,
                      total_objects_created := result.1,
                      total_objects_linked := result.2.1,
                      total_objects_ignored := 0 },
          cursor := result.2.2 }

/-- Modelled from the spec: the job-scheduling collaborator drives the state
machine, invoking the step function once per planned step in order, merging
each successful step's metadata into the running metadata via `update`, and
stopping at the first error while keeping the metadata accumulated so far.
`runSteps step n k md` runs `n` remaining steps starting at step number `k`. -/
def runSteps (stepFn : Nat → FileIdentifierJobRunMetadata →
    Except JobError FileIdentifierJobRunMetadata) :
    Nat → Nat → FileIdentifierJobRunMetadata →
    FileIdentifierJobRunMetadata × Option JobError
  | 0, _, md => (md, none)
  | n + 1, k, md =>
    match stepFn k md with
    | .ok newMd => runSteps stepFn n (k + 1) (md.update newMd)
    | .error e => (md, some e)

/-- A trivial instantiation of the external scope-validation collaborators,
used for concrete evaluations: every validation succeeds. -/
def trivialOracles : ScopeOracles :=
  { ensure_sub_path_is_in_location := fun _ sp => .ok sp,
    ensure_sub_path_is_directory := fun _ _ => .ok (),
    iso_file_path_new := fun _ fp => .ok { childPrefix := fp },
    ensure_file_path_exists := fun _ _ => .ok () }

/-- An instantiation of the collaborators where the directory check fails
(the sub path is not a directory), used for concrete evaluations. -/
def nonDirectoryOracles : ScopeOracles :=
  { ensure_sub_path_is_in_location := fun _ sp => .ok sp,
    ensure_sub_path_is_directory := fun _ sp => .error (.InvalidSubPath sp),
    iso_file_path_new := fun _ fp => .ok { childPrefix := fp },
    ensure_file_path_exists := fun _ _ => .ok () }

/-- A single orphan row (no object link, not a directory) used in concrete
evaluations. -/
def sampleRow : FilePathRow :=
  { id := 1, location_id := some 1, materialized_path := some "p/",
    is_dir := some false, object_id := none }

lemma orphan_path_filters_some_iff (location_id : Int) (c : Int) (scope : Option Iso)
    (r : FilePathRow) :
    orphan_path_filters location_id (some c) scope r = true ↔
      orphan_path_filters location_id none scope r = true ∧ c ≤ r.id := by
  simp only [orphan_path_filters, Bool.and_eq_true, decide_eq_true_eq]
  tauto

/-- C1: for every location, cursor value, optional scope and chunk size,
`get_orphan_file_paths` returns only rows of the table matching the orphan
filter (object link unset, not a directory, matching location, matching scope
prefix when given) with `id ≥ cursor` (in particular never an id below the
cursor), ordered ascending by id, and at most `chunk_size` rows. -/
theorem C1_get_orphan_file_paths_correct (rows : List FilePathRow) (location_id : Int)
    (cursor : Int) (scope : Option Iso) (chunk_size : Nat) :
    (∀ r ∈ get_orphan_file_paths rows location_id cursor scope chunk_size,
        r ∈ rows ∧ orphan_path_filters location_id none scope r = true ∧ cursor ≤ r.id) ∧
    (get_orphan_file_paths rows location_id cursor scope chunk_size).Pairwise idLe ∧
    (get_orphan_file_paths rows location_id cursor scope chunk_size).length ≤ chunk_size := by
  refine ⟨?_, ?_, ?_⟩
  · intro r hr
    have hr1 : r ∈ (rows.filter
        (orphan_path_filters location_id (some cursor) scope)).insertionSort idLe :=
      List.mem_of_mem_take hr
    rw [List.mem_insertionSort] at hr1
    obtain ⟨hmem, hfilt⟩ := List.mem_filter.mp hr1
    obtain ⟨hnone, hc⟩ := (orphan_path_filters_some_iff location_id cursor scope r).mp hfilt
    exact ⟨hmem, hnone, hc⟩
  · exact List.Pairwise.sublist (List.take_sublist _ _)
      (List.sorted_insertionSort idLe _)
  · exact List.length_take_le _ _

/-- C3: the aggregator `update` sums all four report counters field-wise and
replaces the cursor with the step's cursor instead of summing it. -/
theorem C3_update_sums_counters_replaces_cursor
    (running stepResult : FileIdentifierJobRunMetadata) :
    (running.update stepResult).report.total_orphan_paths =
        running.report.total_orphan_paths + stepResult.report.total_orphan_paths ∧
    (running.update stepResult).report.total_objects_created =
        running.report.total_objects_created + stepResult.report.total_objects_created ∧
    (running.update stepResult).report.total_objects_linked =
        running.report.total_objects_linked + stepResult.report.total_objects_linked ∧
    (running.update stepResult).report.total_objects_ignored =
        running.report.total_objects_ignored + stepResult.report.total_objects_ignored ∧
    (running.update stepResult).cursor = stepResult.cursor :=
  ⟨rfl, rfl, rfl, rfl, rfl⟩

/-- C10: a present-but-empty `sub_path` (`Some("")`) takes the `_ => None`
branch of the match in `init` just like an absent `sub_path`: no scope
validation runs, no scope filter is built, and `init` behaves identically on
the two inputs for every database. -/
theorem C10_empty_sub_path_like_none (oracles : ScopeOracles) (location : LocationData)
    (rows : List FilePathRow) (float_ceil_div : Nat → Nat → Nat) (chunk_size : Nat) :
    init oracles location (some "") rows float_ceil_div chunk_size =
      init oracles location none rows float_ceil_div chunk_size := by
  cases hp : location.path <;>
    simp [init, maybe_missing, hp, validate_sub_path]

/-- C5: when the fetch for an expected chunk returns no rows (no stored row
matches the filter at the current cursor), `execute_step` terminates the run
with the `EarlyFinish` error whose reason reports the missing rows, without
producing any step metadata; the scheduler therefore stops with the run
metadata accumulated in prior completed steps unchanged. -/
theorem C5_empty_batch_early_finish (rows : List FilePathRow) (location_id : Int)
    (scope : Option Iso) (chunk_size : Nat) (outcome : FilePathRow → EntryOutcome)
    (md : FileIdentifierJobRunMetadata) (n k : Nat)
    (h : rows.filter (orphan_path_filters location_id (some md.cursor) scope) = []) :
    execute_step rows location_id scope chunk_size outcome md =
      .error (.EarlyFinish "file_identifier"
        "Expected orphan Paths not returned from database query for this chunk") ∧
    runSteps (fun _ m => execute_step rows location_id scope chunk_size outcome m)
        (n + 1) k md =
      (md, some (.EarlyFinish "file_identifier"
        "Expected orphan Paths not returned from database query for this chunk")) := by
  have hstep : execute_step rows location_id scope chunk_size outcome md =
      .error (.EarlyFinish "file_identifier"
        "Expected orphan Paths not returned from database query for this chunk") := by
    simp [execute_step, get_orphan_file_paths, h]
  exact ⟨hstep, by simp [runSteps, hstep]⟩

/-- Closed witness for C5 at a concrete input: an empty table and the default
run metadata. -/
theorem C5_empty_batch_early_finish_witness :
    execute_step [] 1 none 100 (fun _ => EntryOutcome.ignored) {} =
      .error (.EarlyFinish "file_identifier"
        "Expected orphan Paths not returned from database query for this chunk") ∧
    runSteps (fun _ m => execute_step [] 1 none 100 (fun _ => EntryOutcome.ignored) m)
        (0 + 1) 1 {} =
      ({}, some (.EarlyFinish "file_identifier"
        "Expected orphan Paths not returned from database query for this chunk")) :=
  C5_empty_batch_early_finish [] 1 none 100 (fun _ => EntryOutcome.ignored) {} 0 1 rfl

/-- C6 counterexample: at a concrete zero-orphan input `init` does yield
`EarlyFinish`, but its reason string is
"Found no orphan file paths to process", not the claimed
"no orphan file paths to process". -/
theorem C6_zero_orphans_reason_counterexample :
    init trivialOracles { id := 1, path := some "/loc" } none []
        (fun a b => (a + b - 1) / b) 100 =
      .error (.EarlyFinish "file_identifier" "Found no orphan file paths to process") ∧
    "Found no orphan file paths to process" ≠ "no orphan file paths to process" := by
  exact ⟨rfl, by decide⟩

/-- C6 (amended): whenever the location path is present, scope validation
succeeds, and the orphan count over the resolved scope is zero, `init` yields
`EarlyFinish` with reason "Found no orphan file paths to process" and returns
no step list, so no `execute_step` is ever run for the job. -/
theorem C6_zero_orphans_early_finish (oracles : ScopeOracles) (location : LocationData)
    (sub_path : Option String) (rows : List FilePathRow)
    (float_ceil_div : Nat → Nat → Nat) (chunk_size : Nat)
    (location_path : String) (scope : Option Iso)
    (hpath : location.path = some location_path)
    (hv : validate_sub_path oracles location_path sub_path = .ok scope)
    (hc : count_orphan_file_paths rows location.id scope = 0) :
    init oracles location sub_path rows float_ceil_div chunk_size =
      .error (.EarlyFinish "file_identifier" "Found no orphan file paths to process") := by
  simp [init, maybe_missing, hpath, hv, hc]

/-- Closed witness for the amended C6 at a concrete input. -/
theorem C6_zero_orphans_early_finish_witness :
    init trivialOracles { id := 2, path := some "/data" } none []
        (fun a b => (a + b - 1) / b) 100 =
      .error (.EarlyFinish "file_identifier" "Found no orphan file paths to process") :=
  C6_zero_orphans_early_finish trivialOracles { id := 2, path := some "/data" } none []
    (fun a b => (a + b - 1) / b) 100 "/data" none rfl rfl rfl

/-- C7: if the location path is present and scope validation of a non-empty
sub path fails with a sub-path error (for example the sub path is not a
directory), `init` fails with that fatal sub-path error, and its result is
independent of the stored rows — the only reads of the row table in `init`
are the orphan count and the first-orphan lookup, so no orphan counting is
performed before the failure. -/
theorem C7_invalid_sub_path_before_counting (oracles : ScopeOracles)
    (location : LocationData) (location_path sub_path : String)
    (rows rows' : List FilePathRow) (float_ceil_div : Nat → Nat → Nat)
    (chunk_size : Nat) (se : SubPathError)
    (hpath : location.path = some location_path)
    (hv : validate_sub_path oracles location_path (some sub_path) =
      .error (.SubPath se)) :
    init oracles location (some sub_path) rows float_ceil_div chunk_size =
      .error (.SubPath se) ∧
    init oracles location (some sub_path) rows' float_ceil_div chunk_size =
      init oracles location (some sub_path) rows float_ceil_div chunk_size := by
  have h1 : ∀ rs : List FilePathRow,
      init oracles location (some sub_path) rs float_ceil_div chunk_size =
        .error (.SubPath se) := by
    intro rs
    simp [init, maybe_missing, hpath, hv]
  exact ⟨h1 rows, (h1 rows').trans (h1 rows).symm⟩

/-- Closed witness for C7: a non-directory sub path at a concrete input, with
two different databases giving the same failure. -/
theorem C7_invalid_sub_path_before_counting_witness :
    init nonDirectoryOracles { id := 1, path := some "/loc" } (some "sub") []
        (fun a b => (a + b - 1) / b) 100 =
      .error (.SubPath (.InvalidSubPath "sub")) ∧
    init nonDirectoryOracles { id := 1, path := some "/loc" } (some "sub") [sampleRow]
        (fun a b => (a + b - 1) / b) 100 =
      init nonDirectoryOracles { id := 1, path := some "/loc" } (some "sub") []
        (fun a b => (a + b - 1) / b) 100 :=
  C7_invalid_sub_path_before_counting nonDirectoryOracles
    { id := 1, path := some "/loc" } "/loc" "sub" [] [sampleRow]
    (fun a b => (a + b - 1) / b) 100 (.InvalidSubPath "sub") rfl (by rfl)

lemma outcome_counts_partition (outcome : FilePathRow → EntryOutcome)
    (l : List FilePathRow) :
    (l.filter fun r => outcome r == EntryOutcome.created).length +
    (l.filter fun r => outcome r == EntryOutcome.linked).length +
    (l.filter fun r => outcome r == EntryOutcome.ignored).length = l.length := by
  induction l with
  | nil => rfl
  | cons x xs ih =>
    cases hx : outcome x <;>
      simp [List.filter_cons, hx, beq_iff_eq] <;> omega

/-- C2 counterexample: a batch of one orphan entry whose identification is
soft-failed (ignored).  The step merges metadata whose created, linked and
ignored counters are all zero, while the batch actually processed has one
entry — `execute_step` stores the engine's created and linked counts but
never writes `total_objects_ignored`, so the claimed per-step identity
`created + linked + ignored == processed` fails. -/
theorem C2_step_counters_counterexample :
    (get_orphan_file_paths [sampleRow] 1 0 none 100).length = 1 ∧
    execute_step [sampleRow] 1 none 100 (fun _ => EntryOutcome.ignored) {} =
      .ok { report := { total_orphan_paths := 0, total_objects_created := 0,
                        total_objects_linked := 0, total_objects_ignored := 0 },
            cursor := 2 } :=
  ⟨rfl, rfl⟩

/-- C2 (amended): for every completed step, the metadata the step merges into
the run report has `total_objects_ignored = 0`, and its created and linked
counters satisfy `created + linked + (entries of the batch soft-failed as
ignored) == entries actually processed in that step`; the identity
`created + linked + ignored == processed` holds only when no entry of the
batch was ignored. -/
theorem C2_step_counters_amended (rows : List FilePathRow) (location_id : Int)
    (scope : Option Iso) (chunk_size : Nat) (outcome : FilePathRow → EntryOutcome)
    (md newMd : FileIdentifierJobRunMetadata)
    (h : execute_step rows location_id scope chunk_size outcome md = .ok newMd) :
    newMd.report.total_objects_ignored = 0 ∧
    newMd.report.total_objects_created + newMd.report.total_objects_linked +
        ((get_orphan_file_paths rows location_id md.cursor scope chunk_size).filter
          fun r => outcome r == EntryOutcome.ignored).length =
      (get_orphan_file_paths rows location_id md.cursor scope chunk_size).length := by
  simp only [execute_step, process_identifier_file_paths] at h
  split at h
  · exact absurd h (by simp)
  · obtain rfl : _ = newMd := (Except.ok.injEq _ _).mp h
    exact ⟨rfl, outcome_counts_partition outcome _⟩

/-- Closed witness for the amended C2 at a concrete input: one orphan entry,
identified as a newly created object. -/
theorem C2_step_counters_amended_witness :
    ({ report := { total_orphan_paths := 0, total_objects_created := 1,
                   total_objects_linked := 0, total_objects_ignored := 0 },
       cursor := 2 } : FileIdentifierJobRunMetadata).report.total_objects_ignored = 0 ∧
    ({ report := { total_orphan_paths := 0, total_objects_created := 1,
                   total_objects_linked := 0, total_objects_ignored := 0 },
       cursor := 2 } : FileIdentifierJobRunMetadata).report.total_objects_created +
        ({ report := { total_orphan_paths := 0, total_objects_created := 1,
                       total_objects_linked := 0, total_objects_ignored := 0 },
           cursor := 2 } : FileIdentifierJobRunMetadata).report.total_objects_linked +
        ((get_orphan_file_paths [sampleRow] 1
            ({} : FileIdentifierJobRunMetadata).cursor none 100).filter
          fun r => (fun _ => EntryOutcome.created) r == EntryOutcome.ignored).length =
      (get_orphan_file_paths [sampleRow] 1
        ({} : FileIdentifierJobRunMetadata).cursor none 100).length :=
  C2_step_counters_amended [sampleRow] 1 none 100 (fun _ => EntryOutcome.created) {}
    { report := { total_orphan_paths := 0, total_objects_created := 1,
                  total_objects_linked := 0, total_objects_ignored := 0 },
      cursor := 2 } rfl

lemma validate_sub_path_error_is_sub_path (oracles : ScopeOracles)
    (location_path : String) (sub_path : Option String) (e : JobError)
    (h : validate_sub_path oracles location_path sub_path = .error e) :
    ∃ se, e = JobError.SubPath se := by
  cases sub_path with
  | none => exact absurd h (by simp [validate_sub_path])
  | some s =>
    unfold validate_sub_path at h
    split at h
    · split at h
      · split at h
        · injection h with h2; exact ⟨_, h2.symm⟩
        · split at h
          · injection h with h2; exact ⟨_, h2.symm⟩
          · split at h
            · injection h with h2; exact ⟨_, h2.symm⟩
            · split at h
              · injection h with h2; exact ⟨_, h2.symm⟩
              · exact absurd h (by simp)
      · exact absurd h (by simp)
    · exact absurd h (by simp)

/-- C9: the first-orphan lookup returns no row exactly when the orphan count
over the same filter is zero (the store is a single immutable value here, so
it is unchanged between the count and the lookup); since `init` early-finishes
on a zero count before querying, the `.expect` branch of the lookup — modelled
as the `ExpectPanic` error — is unreachable: `init` never returns it. -/
theorem C9_find_first_expect_unreachable (oracles : ScopeOracles)
    (location : LocationData) (sub_path : Option String) (rows : List FilePathRow)
    (float_ceil_div : Nat → Nat → Nat) (chunk_size : Nat) :
    (∀ (location_id : Int) (scope : Option Iso),
        count_orphan_file_paths rows location_id scope = 0 ↔
          find_first_orphan rows location_id scope = none) ∧
    ∀ msg, init oracles location sub_path rows float_ceil_div chunk_size ≠
      .error (.ExpectPanic msg) := by
  have hiff : ∀ (location_id : Int) (scope : Option Iso),
      count_orphan_file_paths rows location_id scope = 0 ↔
        find_first_orphan rows location_id scope = none := by
    intro lid scope
    simp [count_orphan_file_paths, find_first_orphan, List.length_eq_zero,
      List.head?_eq_none_iff]
  refine ⟨hiff, ?_⟩
  intro msg
  cases hp : location.path with
  | none => simp [init, maybe_missing, hp]
  | some lp =>
    cases hv : validate_sub_path oracles lp sub_path with
    | error e =>
      obtain ⟨se, rfl⟩ := validate_sub_path_error_is_sub_path oracles lp sub_path e hv
      simp [init, maybe_missing, hp, hv]
    | ok scope =>
      by_cases hc : count_orphan_file_paths rows location.id scope = 0
      · simp [init, maybe_missing, hp, hv, hc]
      · cases hf : find_first_orphan rows location.id scope with
        | none => exact absurd ((hiff location.id scope).mpr hf) hc
        | some fp => simp [init, maybe_missing, hp, hv, hc, hf]

lemma head_filter_is_min (rows : List FilePathRow) (p : FilePathRow → Bool)
    (x : FilePathRow) (hs : rows.Pairwise (fun a b => a.id < b.id))
    (hx : (rows.filter p).head? = some x) :
    x ∈ rows ∧ p x = true ∧ ∀ r ∈ rows, p r = true → x.id ≤ r.id := by
  have hsf : (rows.filter p).Pairwise (fun a b => a.id < b.id) :=
    List.Pairwise.sublist (List.filter_sublist rows) hs
  cases hl : rows.filter p with
  | nil => rw [hl] at hx; cases hx
  | cons y ys =>
    rw [hl] at hx
    injection hx with hyx
    subst hyx
    rw [hl] at hsf
    have hxmem : y ∈ rows.filter p := by rw [hl]; exact List.mem_cons_self y ys
    obtain ⟨hxrows, hpx⟩ := List.mem_filter.mp hxmem
    refine ⟨hxrows, hpx, ?_⟩
    intro r hr hpr
    have hrf : r ∈ rows.filter p := List.mem_filter.mpr ⟨hr, hpr⟩
    rw [hl] at hrf
    rcases List.mem_cons.mp hrf with hrx | hrys
    · exact le_of_eq (by rw [hrx])
    · exact le_of_lt ((List.pairwise_cons.mp hsf).1 r hrys)

/-- C8: every successful `init` starts the run metadata with
`total_orphan_paths` equal to the (positive) orphan count, zero created,
linked and ignored counters, and cursor equal to the id of the first stored
row satisfying the orphan filter — which, as ids are assigned in increasing
order (the table is sorted by id), is the smallest id satisfying the filter. -/
theorem C8_init_initial_metadata (oracles : ScopeOracles) (location : LocationData)
    (sub_path : Option String) (rows : List FilePathRow)
    (float_ceil_div : Nat → Nat → Nat) (chunk_size : Nat)
    (location_path : String) (scope : Option Iso)
    (md : FileIdentifierJobRunMetadata) (n : Nat)
    (hpath : location.path = some location_path)
    (hv : validate_sub_path oracles location_path sub_path = .ok scope)
    (hs : rows.Pairwise (fun a b => a.id < b.id))
    (h : init oracles location sub_path rows float_ceil_div chunk_size = .ok (md, n)) :
    0 < count_orphan_file_paths rows location.id scope ∧
    md.report.total_orphan_paths = count_orphan_file_paths rows location.id scope ∧
    md.report.total_objects_created = 0 ∧
    md.report.total_objects_linked = 0 ∧
    md.report.total_objects_ignored = 0 ∧
    ∃ r ∈ rows, orphan_path_filters location.id none scope r = true ∧
      md.cursor = r.id ∧
      ∀ r' ∈ rows, orphan_path_filters location.id none scope r' = true →
        r.id ≤ r'.id := by
  simp only [init, maybe_missing, hpath, hv] at h
  by_cases hc : count_orphan_file_paths rows location.id scope = 0
  · rw [if_pos hc] at h; cases h
  · rw [if_neg hc] at h
    cases hf : find_first_orphan rows location.id scope with
    | none => rw [hf] at h; cases h
    | some fp =>
      rw [hf] at h
      injection h with h2
      injection h2 with hmd hn
      subst hmd
      refine ⟨Nat.pos_of_ne_zero hc, rfl, rfl, rfl, rfl, ?_⟩
      have hx : (rows.filter
          (orphan_path_filters location.id none scope)).head? = some fp := hf
      obtain ⟨hmem, hp, hmin⟩ := head_filter_is_min rows
        (orphan_path_filters location.id none scope) fp hs hx
      exact ⟨fp, hmem, hp, rfl, hmin⟩

/-- A second orphan row with a larger id, used in concrete evaluations. -/
def sampleRow2 : FilePathRow :=
  { id := 3, location_id := some 1, materialized_path := some "p/q/",
    is_dir := some false, object_id := none }

/-- Closed witness for C8 at a concrete input: two orphan rows with ids 1 and
3; `init` reports 2 orphans, zero counters and cursor 1. -/
theorem C8_init_initial_metadata_witness :
    0 < count_orphan_file_paths [sampleRow, sampleRow2] 1 none ∧
    ({ report := { total_orphan_paths := 2, total_objects_created := 0,
                   total_objects_linked := 0, total_objects_ignored := 0 },
       cursor := 1 } : FileIdentifierJobRunMetadata).report.total_orphan_paths =
      count_orphan_file_paths [sampleRow, sampleRow2] 1 none ∧
    ({ report := { total_orphan_paths := 2, total_objects_created := 0,
                   total_objects_linked := 0, total_objects_ignored := 0 },
       cursor := 1 } : FileIdentifierJobRunMetadata).report.total_objects_created = 0 ∧
    ({ report := { total_orphan_paths := 2, total_objects_created := 0,
                   total_objects_linked := 0, total_objects_ignored := 0 },
       cursor := 1 } : FileIdentifierJobRunMetadata).report.total_objects_linked = 0 ∧
    ({ report := { total_orphan_paths := 2, total_objects_created := 0,
                   total_objects_linked := 0, total_objects_ignored := 0 },
       cursor := 1 } : FileIdentifierJobRunMetadata).report.total_objects_ignored = 0 ∧
    ∃ r ∈ [sampleRow, sampleRow2], orphan_path_filters 1 none none r = true ∧
      ({ report := { total_orphan_paths := 2, total_objects_created := 0,
                     total_objects_linked := 0, total_objects_ignored := 0 },
         cursor := 1 } : FileIdentifierJobRunMetadata).cursor = r.id ∧
      ∀ r' ∈ [sampleRow, sampleRow2], orphan_path_filters 1 none none r' = true →
        r.id ≤ r'.id :=
  C8_init_initial_metadata trivialOracles { id := 1, path := some "/loc" } none
    [sampleRow, sampleRow2] (fun a b => (a + b - 1) / b) 100 "/loc" none
    { report := { total_orphan_paths := 2, total_objects_created := 0,
                  total_objects_linked := 0, total_objects_ignored := 0 },
      cursor := 1 } 1 rfl rfl (by decide) (by rfl)
